import Mathlib

/-!
Verification of the `ck-ms-di` dependency-injection container.

The repository ships several revisions of one container. The primary
embedding below follows the exported synchronous class
`ServiceContainer` of `src/ServiceContainer.ts` (methods `register`,
`resolve`, `_createInstance`, `_resolveFromSession`, `beginSession`,
`endSession`).  A second, smaller embedding follows the asynchronous
revision kept in the same file (methods `registerAsync`,
`resolveAsync`, `_createInstanceAsync`), whose failure mode is to
substitute `undefined` and continue instead of throwing.

Modelling decisions, each forced by the source:
* A class (`classType`) is reduced to its `name` string and the list of
  its constructor-parameter type names (`design:paramtypes` metadata):
  the container reads nothing else from it.  A `tag` field keeps two
  classes distinct even when they share a `.name`.
* Object instances are fresh natural numbers drawn from a counter:
  the container never inspects an instance, only compares references.
* `uuidv4` session ids are modelled by a fresh-counter: the source
  re-rolls on collision, so a begun session id is always fresh.
* The synchronous container is partial (a dependency cycle recurses
  without any guard), so every operation takes a fuel argument; `noFuel`
  marks a computation still running when the budget is exhausted.
* JavaScript aliasing is preserved: `_resolveFromSession` stores in the
  session map the very descriptor object held by `_services` and writes
  the created instance onto that shared descriptor, so a session's
  cached entry always reads the descriptor's current `instance` field.
-/

namespace DI

/-- `type Lifecycle = 'singleton' | 'transient' | 'scoped'`. -/
inductive Lifecycle where
  | singleton
  | transient
  | scoped
deriving DecidableEq

/-- A constructor function: its `.name` and the names of its
constructor-parameter types (`design:paramtypes`).  `tag` models object
identity of the class itself, letting distinct classes share a name. -/
structure ClassT where
  cname : String
  deps : List String
  tag : Nat := 0
deriving DecidableEq

/-- `interface ServiceModel { name; lifecycle; classType; instance? }`
(the unused `sessionId?` field is dropped).  `instance?` holds the id of
the cached object, set for singletons at registration and overwritten
for scoped services on each materialisation. -/
structure ServiceModel where
  name : String
  lifecycle : Lifecycle
  classType : ClassT
  instance? : Option Nat := none
deriving DecidableEq

/-- State of the synchronous container: `_services`, `sessions` (each
session keeps the set of names materialised in it — the stored value is
an alias of the global descriptor, so only membership is information),
and the two freshness counters. -/
structure St where
  services : List ServiceModel := []
  sessions : List (Nat × List String) := []
  nextId : Nat := 0
  nextSession : Nat := 0
deriving DecidableEq

/-- The errors thrown by the synchronous container, one per `throw new
Error(...)` site. -/
inductive Err where
  | duplicateService (name : String)
  | notFound (name : String)
  | scopeRequired (name : String)
  | unknownScope (sid : Nat)
  | unresolvedDependency (dep parent : String)
  | illegalScopedInjection (dep : String)
deriving DecidableEq

/-- A value observable from `resolve`: a constructed instance, the
container itself (the `ServiceContainer` sentinel dependency), or
JavaScript `undefined`. -/
inductive Value where
  | vInst (id : Nat)
  | vContainer
  | vUndefined
deriving DecidableEq

/-- Result of a fuelled container operation: normal return with the new
state, a thrown error with the state at the throw, or fuel exhaustion
(the JavaScript original is still recursing). -/
inductive RRes (α : Type) where
  | ok (a : α) (st : St)
  | err (e : Err) (st : St)
  | noFuel
deriving DecidableEq

/-- `resolve(nameOrType)`: either a string or a class. -/
inductive NameOrType where
  | byName (s : String)
  | byType (c : ClassT)
deriving DecidableEq

/-- The lookup key: the string itself, or the class's `.name`. -/
def keyName : NameOrType → String
  | .byName s => s
  | .byType c => c.cname

/-- `Map.get` on a list of descriptors keyed by `name`. -/
def findSvc : List ServiceModel → String → Option ServiceModel
  | [], _ => none
  | s :: rest, n => if s.name = n then some s else findSvc rest n

/-- `this._services.get(name)`. -/
def lookupService (st : St) (name : String) : Option ServiceModel :=
  findSvc st.services name

/-- `this.sessions.get(sessionId)`. -/
def lookupSession (st : St) (sid : Nat) : Option (List String) :=
  (st.sessions.find? (fun p => p.1 = sid)).map (·.2)

/-- `Map.set` on an existing key: replace the (unique) entry. -/
def setInstL : List ServiceModel → String → Nat → List ServiceModel
  | [], _, _ => []
  | s :: rest, n, id =>
    if s.name = n then { s with instance? := some id } :: rest
    else s :: setInstL rest n id

/-- `service.instance = id` for the descriptor named `n`. -/
def setInst (st : St) (n : String) (id : Nat) : St :=
  { st with services := setInstL st.services n id }

/-- `session.services.set(service.name, service)`: record that `n` is
materialised in session `sid` (the stored value aliases the global
descriptor). -/
def addToSession (st : St) (sid : Nat) (n : String) : St :=
  { st with sessions := st.sessions.map (fun p => if p.1 = sid then (p.1, p.2 ++ [n]) else p) }

/-- Reading `x?.instance`: `undefined` when the field is unset. -/
def instVal : Option Nat → Value
  | some n => .vInst n
  | none => .vUndefined

/-- The current `instance` field of the descriptor named `n` — what a
session's aliased entry reads. -/
def currentInstance (st : St) (n : String) : Option Nat :=
  (lookupService st n).bind (·.instance?)

mutual

/-- `resolve(nameOrType, sessionId?)` of the synchronous container:
normalise the key, look the descriptor up (`NotFound` when absent),
reject a scoped resolution without a session (`ScopeRequired`), route a
scoped resolution to the session, return a cached singleton, otherwise
construct. -/
def resolve : Nat → St → NameOrType → Option Nat → RRes Value
  | 0, _, _, _ => .noFuel
  | n+1, st, key, sid =>
    let name := keyName key
    match lookupService st name with
    | none => .err (.notFound name) st
    | some svc =>
      if svc.lifecycle = .scoped then
        match sid with
        | none => .err (.scopeRequired name) st
        | some s => resolveFromSession n st svc s
      else if svc.lifecycle = .singleton ∧ svc.instance?.isSome then
        .ok (instVal svc.instance?) st
      else
        match createInstance n st svc sid with
        | .ok id st' => .ok (.vInst id) st'
        | .err e st' => .err e st'
        | .noFuel => .noFuel

/-- `_resolveFromSession(service, sessionId)`: unknown session throws
`UnknownScope`; a materialised name returns the aliased descriptor's
current `instance`; otherwise construct, write the instance onto the
shared descriptor (`service.instance = ...`), record the name in the
session, and return the just-assigned instance. -/
def resolveFromSession : Nat → St → ServiceModel → Nat → RRes Value
  | 0, _, _, _ => .noFuel
  | n+1, st, svc, sid =>
    match lookupSession st sid with
    | none => .err (.unknownScope sid) st
    | some sess =>
      if sess.contains svc.name then
        .ok (instVal (currentInstance st svc.name)) st
      else
        match createInstance n st svc (some sid) with
        | .ok id st' => .ok (.vInst id) (addToSession (setInst st' svc.name id) sid svc.name)
        | .err e st' => .err e st'
        | .noFuel => .noFuel

/-- `_createInstance(service, sessionId?)`: resolve the declared
dependencies in order, then `new service.classType(...)` — allocate a
fresh instance id. -/
def createInstance : Nat → St → ServiceModel → Option Nat → RRes Nat
  | 0, _, _, _ => .noFuel
  | n+1, st, svc, sid =>
    match resolveDepsList n st svc svc.classType.deps sid with
    | .ok _vals st' => .ok st'.nextId { st' with nextId := st'.nextId + 1 }
    | .err e st' => .err e st'
    | .noFuel => .noFuel

/-- The `dependencies.map(...)` closure of `_createInstance`: the
`ServiceContainer` sentinel yields the container; a dependency with no
descriptor throws `UnresolvedDependency` naming dependency and parent;
a scoped dependency of a singleton parent throws
`IllegalScopedInjection`; otherwise recursively `resolve` by name.  The
first throw aborts the whole chain. -/
def resolveDepsList : Nat → St → ServiceModel → List String → Option Nat → RRes (List Value)
  | 0, _, _, _, _ => .noFuel
  | _+1, st, _, [], _ => .ok [] st
  | n+1, st, parent, d :: rest, sid =>
    if d = "ServiceContainer" then
      match resolveDepsList n st parent rest sid with
      | .ok vs st' => .ok (.vContainer :: vs) st'
      | .err e st' => .err e st'
      | .noFuel => .noFuel
    else
      match lookupService st d with
      | none => .err (.unresolvedDependency d parent.name) st
      | some dsvc =>
        if parent.lifecycle = .singleton ∧ dsvc.lifecycle = .scoped then
          .err (.illegalScopedInjection d) st
        else
          match resolve n st (.byName d) sid with
          | .ok v st' =>
            match resolveDepsList n st' parent rest sid with
            | .ok vs st'' => .ok (v :: vs) st''
            | .err e st'' => .err e st''
            | .noFuel => .noFuel
          | .err e st' => .err e st'
          | .noFuel => .noFuel

end

/-- Append a descriptor (`Map.set` with a key known to be fresh). -/
def addServiceSt (st : St) (svc : ServiceModel) : St :=
  { st with services := st.services ++ [svc] }

/-- `register(name, classType, lifecycle)`: duplicate names throw
`DuplicateService`; a singleton's instance is constructed eagerly —
before the descriptor is inserted — so a construction failure leaves
the store untouched. -/
def register (fuel : Nat) (st : St) (name : String) (ct : ClassT) (lc : Lifecycle) : RRes Unit :=
  if (lookupService st name).isSome then .err (.duplicateService name) st
  else if lc = .singleton then
    match createInstance fuel st ⟨name, lc, ct, none⟩ none with
    | .ok id st' => .ok () (addServiceSt st' ⟨name, lc, ct, some id⟩)
    | .err e st' => .err e st'
    | .noFuel => .noFuel
  else .ok () (addServiceSt st ⟨name, lc, ct, none⟩)

/-- `beginSession()`: a fresh id with an empty instance cache. -/
def beginSession (st : St) : Nat × St :=
  (st.nextSession,
   { st with sessions := st.sessions ++ [(st.nextSession, [])],
             nextSession := st.nextSession + 1 })

/-- `endSession(sessionId)`: `this.sessions.delete(sessionId)`. -/
def endSession (st : St) (sid : Nat) : St :=
  { st with sessions := st.sessions.filter (fun p => p.1 ≠ sid) }

/-- The state a fuelled operation ends in (its argument state when the
budget ran out). -/
def stOf {α : Type} : RRes α → St → St
  | .ok _ s, _ => s
  | .err _ s, _ => s
  | .noFuel, dflt => dflt

/-!
The asynchronous revision (`registerAsync` / `resolveAsync` /
`_createInstanceAsync`).  It throws nothing: every failure prints to
`console.error` and produces `undefined`.  Its sessions store a copy
`{ ...service, instance }`, so each session keeps its own
`name ↦ instance` entries.  A result of `none` is fuel exhaustion.
-/

/-- State of the asynchronous container: sessions map service names to
their own per-session instances. -/
structure StA where
  services : List ServiceModel := []
  sessions : List (Nat × List (String × Nat)) := []
  nextId : Nat := 0
  nextSession : Nat := 0
deriving DecidableEq

/-- `this._services.get(name)` of the async container. -/
def lookupServiceA (st : StA) (name : String) : Option ServiceModel :=
  findSvc st.services name

/-- `this._sessions.get(sessionId)` of the async container. -/
def lookupSessionA (st : StA) (sid : Nat) : Option (List (String × Nat)) :=
  (st.sessions.find? (fun p => p.1 = sid)).map (·.2)

/-- `service.instance = id` in the async container. -/
def setInstA (st : StA) (n : String) (id : Nat) : StA :=
  { st with services := setInstL st.services n id }

/-- `session.services.set(name, { ...service, instance })`: the async
container stores a per-session copy carrying its own instance. -/
def addToSessionA (st : StA) (sid : Nat) (n : String) (id : Nat) : StA :=
  { st with sessions := st.sessions.map (fun p => if p.1 = sid then (p.1, p.2 ++ [(n, id)]) else p) }

mutual

/-- `resolveAsync(nameOrType, sessionId?)`: an unknown name yields
`undefined`; a singleton caches lazily on the descriptor; a transient
constructs; a scoped resolution without a session or with an unknown
session yields `undefined`, otherwise the session's own copy is used. -/
def resolveAsync : Nat → StA → NameOrType → Option Nat → Option (Value × StA)
  | 0, _, _, _ => none
  | n+1, st, key, sid =>
    let name := keyName key
    match lookupServiceA st name with
    | none => some (.vUndefined, st)
    | some svc =>
      match svc.lifecycle with
      | .singleton =>
        match svc.instance? with
        | some i => some (.vInst i, st)
        | none =>
          match createInstanceAsync n st svc sid with
          | some (id, st') => some (.vInst id, setInstA st' name id)
          | none => none
      | .transient =>
        match createInstanceAsync n st svc sid with
        | some (id, st') => some (.vInst id, st')
        | none => none
      | .scoped =>
        match sid with
        | none => some (.vUndefined, st)
        | some s =>
          match lookupSessionA st s with
          | none => some (.vUndefined, st)
          | some sess =>
            match sess.find? (fun p => p.1 = name) with
            | some p => some (.vInst p.2, st)
            | none =>
              match createInstanceAsync n st svc (some s) with
              | some (id, st') => some (.vInst id, addToSessionA st' s name id)
              | none => none

/-- `_createInstanceAsync(service, sessionId?)`: collect the dependency
values, then `new service.classType(...)` — a fresh instance id. -/
def createInstanceAsync : Nat → StA → ServiceModel → Option Nat → Option (Nat × StA)
  | 0, _, _, _ => none
  | n+1, st, svc, sid =>
    match resolveDepsAsync n st svc svc.classType.deps sid with
    | some (_vals, st') => some (st'.nextId, { st' with nextId := st'.nextId + 1 })
    | none => none

/-- The dependency loop of `_createInstanceAsync`: the container
sentinel yields the container; a dependency with no descriptor pushes
`undefined` and continues; a scoped dependency of a singleton parent
pushes `undefined` and continues; otherwise `resolveAsync` by name.
(The source's second `if (!depService)` check after the `has` test is
unreachable and is not modelled.) -/
def resolveDepsAsync : Nat → StA → ServiceModel → List String → Option Nat → Option (List Value × StA)
  | 0, _, _, _, _ => none
  | _+1, st, _, [], _ => some ([], st)
  | n+1, st, parent, d :: rest, sid =>
    if d = "ServiceContainer" then
      (resolveDepsAsync n st parent rest sid).map (fun p => (.vContainer :: p.1, p.2))
    else
      match lookupServiceA st d with
      | none =>
        (resolveDepsAsync n st parent rest sid).map (fun p => (.vUndefined :: p.1, p.2))
      | some dsvc =>
        if parent.lifecycle = .singleton ∧ dsvc.lifecycle = .scoped then
          (resolveDepsAsync n st parent rest sid).map (fun p => (.vUndefined :: p.1, p.2))
        else
          match resolveAsync n st (.byName d) sid with
          | some (v, st') =>
            (resolveDepsAsync n st' parent rest sid).map (fun p => (v :: p.1, p.2))
          | none => none

end

/-- `registerAsync(name, classType, lifecycle)`: a duplicate name is
logged and ignored — the call returns normally with the store
unchanged; a singleton is constructed eagerly and registered even when
dependencies were substituted by `undefined`. -/
def registerAsync (fuel : Nat) (st : StA) (name : String) (ct : ClassT) (lc : Lifecycle) : Option StA :=
  if (lookupServiceA st name).isSome then some st
  else if lc = .singleton then
    match createInstanceAsync fuel st ⟨name, lc, ct, none⟩ none with
    | some (id, st') => some { st' with services := st'.services ++ [⟨name, lc, ct, some id⟩] }
    | none => none
  else some { st with services := st.services ++ [⟨name, lc, ct, none⟩] }

/-!  Concrete fixtures used by counterexamples and witnesses.  -/

/-- Class `A` with constructor parameter `B`. -/
def cCycA : ClassT := ⟨"A", ["B"], 0⟩

/-- Class `B` with constructor parameter `A` — together with `A` a
dependency cycle. -/
def cCycB : ClassT := ⟨"B", ["A"], 0⟩

/-- Class `D`, no dependencies, unrelated to the cycle. -/
def cCycD : ClassT := ⟨"D", [], 0⟩

def svcCycA : ServiceModel := ⟨"A", .transient, cCycA, none⟩

def svcCycB : ServiceModel := ⟨"B", .transient, cCycB, none⟩

def svcCycD : ServiceModel := ⟨"D", .transient, cCycD, none⟩

/-- Store after registering the transient cycle `A ↔ B` plus `D`. -/
def stCyc : St := ⟨[svcCycA, svcCycB, svcCycD], [], 0, 0⟩

def stCyc1 : St := ⟨[svcCycA], [], 0, 0⟩

def stCyc2 : St := ⟨[svcCycA, svcCycB], [], 0, 0⟩

/-- A scoped service `X` with no dependencies. -/
def cX : ClassT := ⟨"X", [], 0⟩

def svcX : ServiceModel := ⟨"X", .scoped, cX, none⟩

/-- `X` registered, two sessions `0` and `1` begun. -/
def stX2 : St := ⟨[svcX], [(0, []), (1, [])], 0, 2⟩

/-- After `resolve(X, 0)`: instance `0` created, written onto the shared
descriptor, `X` recorded in session `0`. -/
def stX2a : St := ⟨[⟨"X", .scoped, cX, some 0⟩], [(0, ["X"]), (1, [])], 1, 2⟩

/-- After the interleaved `resolve(X, 1)`: instance `1` overwrites the
shared descriptor's `instance` field. -/
def stX2b : St := ⟨[⟨"X", .scoped, cX, some 1⟩], [(0, ["X"]), (1, ["X"])], 2, 2⟩

/-- Transient `T` depending on scoped `C`; singleton `S` depending on
`T` — a transitive scoped dependency of a singleton. -/
def cT : ClassT := ⟨"T", ["C"], 0⟩

def cC : ClassT := ⟨"C", [], 0⟩

def cS : ClassT := ⟨"S", ["T"], 0⟩

def svcT : ServiceModel := ⟨"T", .transient, cT, none⟩

def svcC : ServiceModel := ⟨"C", .scoped, cC, none⟩

def stTC : St := ⟨[svcT, svcC], [], 0, 0⟩

/-- Only the scoped `C` registered (direct-injection fixture). -/
def stCdirect : St := ⟨[svcC], [], 0, 0⟩

/-- Async fixtures: scoped `C` registered, singleton `S` declaring `C`
directly. -/
def cSA : ClassT := ⟨"S", ["C"], 0⟩

def stCA : StA := ⟨[⟨"C", .scoped, cC, none⟩], [], 0, 0⟩

/-- The async container after `registerAsync("S", …, singleton)`: the
singleton was registered with `undefined` substituted for `C`. -/
def stCA' : StA := ⟨[⟨"C", .scoped, cC, none⟩, ⟨"S", .singleton, cSA, some 0⟩], [], 1, 0⟩

/-- `P` declares dependency `M`, which is never registered. -/
def cP : ClassT := ⟨"P", ["M"], 0⟩

def svcP : ServiceModel := ⟨"P", .transient, cP, none⟩

def stP : StA := ⟨[svcP], [], 0, 0⟩

/-- Sync twin of the missing-dependency fixture. -/
def cQ : ClassT := ⟨"Q", ["M"], 0⟩

def svcQ : ServiceModel := ⟨"Q", .transient, cQ, none⟩

def stQ : St := ⟨[svcQ], [], 0, 0⟩

/-- A singleton `W` with no dependencies, already holding its eagerly
constructed instance `0`. -/
def cW : ClassT := ⟨"W", [], 0⟩

def svcW : ServiceModel := ⟨"W", .singleton, cW, some 0⟩

def stW : St := ⟨[svcW], [], 1, 0⟩

/-- A class named `X` registered under the custom name `Custom`. -/
def cXcls : ClassT := ⟨"X", [], 0⟩

def stCustom : St := ⟨[⟨"Custom", .transient, cXcls, none⟩], [], 0, 0⟩

/-- Two distinct classes sharing the `.name` `Y`. -/
def cY1 : ClassT := ⟨"Y", [], 0⟩

def cY2 : ClassT := ⟨"Y", ["Z"], 1⟩

/-!  Basic lemmas about the store.  -/

theorem findSvc_name {l : List ServiceModel} {n : String} {s : ServiceModel}
    (h : findSvc l n = some s) : s.name = n := by
  induction l with
  | nil => simp [findSvc] at h
  | cons a rest ih =>
    by_cases ha : a.name = n
    · simp [findSvc, ha] at h
      subst h
      exact ha
    · simp [findSvc, ha] at h
      exact ih h

theorem findSvc_append_fresh {l : List ServiceModel} {n : String} (s : ServiceModel)
    (h : findSvc l n = none) (hs : s.name = n) : findSvc (l ++ [s]) n = some s := by
  induction l with
  | nil => simp [findSvc, hs]
  | cons a rest ih =>
    by_cases ha : a.name = n
    · simp [findSvc, ha] at h
    · simp [findSvc, ha] at h ⊢
      exact ih h

/-- How resolution may change a descriptor: never its name, lifecycle or
class, and its cached instance only when it is scoped. -/
def svcCompat (a b : ServiceModel) : Prop :=
  a.name = b.name ∧ a.lifecycle = b.lifecycle ∧ a.classType = b.classType ∧
  (a.lifecycle ≠ .scoped → a.instance? = b.instance?)

/-- The store evolution relation of a resolution call. -/
def evolL (l l' : List ServiceModel) : Prop := List.Forall₂ svcCompat l l'

theorem svcCompat_refl (a : ServiceModel) : svcCompat a a := ⟨rfl, rfl, rfl, fun _ => rfl⟩

theorem svcCompat_trans {a b c : ServiceModel} (h1 : svcCompat a b) (h2 : svcCompat b c) :
    svcCompat a c := by
  obtain ⟨n1, l1, c1, i1⟩ := h1
  obtain ⟨n2, l2, c2, i2⟩ := h2
  refine ⟨n1.trans n2, l1.trans l2, c1.trans c2, fun hs => ?_⟩
  rw [i1 hs, i2 (l1 ▸ hs)]

theorem evolL_refl (l : List ServiceModel) : evolL l l := by
  induction l with
  | nil => exact List.Forall₂.nil
  | cons a rest ih => exact List.Forall₂.cons (svcCompat_refl a) ih

theorem evolL_trans {l1 l2 l3 : List ServiceModel} (h1 : evolL l1 l2) (h2 : evolL l2 l3) :
    evolL l1 l3 := by
  induction h1 generalizing l3 with
  | nil => cases h2; exact List.Forall₂.nil
  | cons hab hrest ih =>
    cases h2 with
    | cons hbc hrest2 => exact List.Forall₂.cons (svcCompat_trans hab hbc) (ih hrest2)

theorem findSvc_evolL {l l' : List ServiceModel} {n : String} {s : ServiceModel}
    (h : evolL l l') (hf : findSvc l n = some s) :
    ∃ s', findSvc l' n = some s' ∧ svcCompat s s' := by
  induction h with
  | nil => simp [findSvc] at hf
  | cons hab hrest ih =>
    rename_i a b l1 l2
    by_cases ha : a.name = n
    · simp [findSvc, ha] at hf
      subst hf
      exact ⟨b, by simp [findSvc, hab.1 ▸ ha], hab⟩
    · simp [findSvc, ha] at hf
      have hb : ¬ b.name = n := fun hbn => ha (hab.1 ▸ hbn)
      obtain ⟨s', hs', hc⟩ := ih hf
      exact ⟨s', by simp [findSvc, hb, hs'], hc⟩

theorem findSvc_none_evolL {l l' : List ServiceModel} {n : String}
    (h : evolL l l') (hf : findSvc l n = none) : findSvc l' n = none := by
  induction h with
  | nil => simp [findSvc]
  | cons hab hrest ih =>
    rename_i a b l1 l2
    by_cases ha : a.name = n
    · simp [findSvc, ha] at hf
    · simp [findSvc, ha] at hf
      have hb : ¬ b.name = n := fun hbn => ha (hab.1 ▸ hbn)
      simp [findSvc, hb]
      exact ih hf

theorem findSvc_nonscoped_evolL {l l' : List ServiceModel} {n : String} {s : ServiceModel}
    (h : evolL l l') (hf : findSvc l n = some s) (hs : s.lifecycle ≠ .scoped) :
    findSvc l' n = some s := by
  obtain ⟨s', hs', hc⟩ := findSvc_evolL h hf
  obtain ⟨hn, hl, hct, hi⟩ := hc
  have : s = s' := by
    cases s
    cases s'
    simp_all
  rw [hs', this]

theorem findSvc_scoped_evolL {l l' : List ServiceModel} {n : String} {s : ServiceModel}
    (h : evolL l l') (hf : findSvc l n = some s) (hs : s.lifecycle = .scoped) :
    ∃ s', findSvc l' n = some s' ∧ s'.lifecycle = .scoped := by
  obtain ⟨s', hs', hc⟩ := findSvc_evolL h hf
  exact ⟨s', hs', hc.2.1 ▸ hs⟩

theorem evolL_setInstL {l : List ServiceModel} {n : String} {s : ServiceModel}
    (hf : findSvc l n = some s) (hs : s.lifecycle = .scoped) (id : Nat) :
    evolL l (setInstL l n id) := by
  induction l with
  | nil => exact List.Forall₂.nil
  | cons a rest ih =>
    by_cases ha : a.name = n
    · simp [findSvc, ha] at hf
      subst hf
      simp only [setInstL, if_pos ha]
      exact List.Forall₂.cons ⟨rfl, rfl, rfl, fun hns => absurd hs hns⟩ (evolL_refl rest)
    · simp [findSvc, ha] at hf
      simp only [setInstL, if_neg ha]
      exact List.Forall₂.cons (svcCompat_refl a) (ih hf)

/-- Master invariant: a resolution call can change the descriptor store
only along `svcCompat` — no descriptor is added, removed or renamed,
and only a scoped descriptor's cached instance may be rewritten. -/
theorem evol_master : ∀ fuel : Nat,
    (∀ st key sid, evolL st.services (stOf (resolve fuel st key sid) st).services) ∧
    (∀ st (svc : ServiceModel) sid, lookupService st svc.name = some svc →
        svc.lifecycle = .scoped →
        evolL st.services (stOf (resolveFromSession fuel st svc sid) st).services) ∧
    (∀ st svc sid, evolL st.services (stOf (createInstance fuel st svc sid) st).services) ∧
    (∀ st parent ds sid, evolL st.services (stOf (resolveDepsList fuel st parent ds sid) st).services) := by
  intro fuel
  induction fuel with
  | zero =>
    refine ⟨?_, ?_, ?_, ?_⟩ <;> intros <;> simp [resolve, resolveFromSession, createInstance,
      resolveDepsList, stOf, evolL_refl]
  | succ n ih =>
    obtain ⟨ihR, ihF, ihC, ihD⟩ := ih
    refine ⟨?_, ?_, ?_, ?_⟩
    · -- resolve
      intro st key sid
      simp only [resolve]
      cases hx : lookupService st (keyName key) with
      | none => simp [hx, stOf, evolL_refl]
      | some svc =>
        by_cases hsc : svc.lifecycle = .scoped
        · cases sid with
          | none => simp [hx, hsc, stOf, evolL_refl]
          | some s =>
            have hname : lookupService st svc.name = some svc := by
              rwa [findSvc_name hx]
            simpa [hx, hsc] using ihF st svc s hname hsc
        · by_cases hsi : svc.lifecycle = .singleton ∧ svc.instance?.isSome
          · simp [hx, hsc, hsi, stOf, evolL_refl]
          · have hc := ihC st svc sid
            cases hcr : createInstance n st svc sid with
            | ok id st' =>
              rw [hcr] at hc
              simpa [hx, hsc, hsi, hcr, stOf] using hc
            | err e st' =>
              rw [hcr] at hc
              simpa [hx, hsc, hsi, hcr, stOf] using hc
            | noFuel => simp [hx, hsc, hsi, hcr, stOf, evolL_refl]
    · -- resolveFromSession
      intro st svc sid hlook hsc
      simp only [resolveFromSession]
      cases hs : lookupSession st sid with
      | none => simp [hs, stOf, evolL_refl]
      | some sess =>
        by_cases hmem : svc.name ∈ sess
        · simp [hs, hmem, stOf, evolL_refl]
        · have hc := ihC st svc (some sid)
          cases hcr : createInstance n st svc (some sid) with
          | ok id st' =>
            rw [hcr] at hc
            simp only [stOf] at hc
            obtain ⟨svc', hf', hsc'⟩ := findSvc_scoped_evolL hc hlook hsc
            have hset : evolL st'.services (setInstL st'.services svc.name id) :=
              evolL_setInstL hf' hsc' id
            simpa [hs, hmem, hcr, stOf, addToSession, setInst] using evolL_trans hc hset
          | err e st' =>
            rw [hcr] at hc
            simpa [hs, hmem, hcr, stOf] using hc
          | noFuel => simp [hs, hmem, hcr, stOf, evolL_refl]
    · -- createInstance
      intro st svc sid
      simp only [createInstance]
      have hd := ihD st svc svc.classType.deps sid
      cases hdr : resolveDepsList n st svc svc.classType.deps sid with
      | ok vals st' =>
        rw [hdr] at hd
        simpa [hdr, stOf] using hd
      | err e st' =>
        rw [hdr] at hd
        simpa [hdr, stOf] using hd
      | noFuel => simp [hdr, stOf, evolL_refl]
    · -- resolveDepsList
      intro st parent ds sid
      cases ds with
      | nil => simp [resolveDepsList, stOf, evolL_refl]
      | cons d rest =>
        simp only [resolveDepsList]
        by_cases hsent : d = "ServiceContainer"
        · have hd := ihD st parent rest sid
          cases hdr : resolveDepsList n st parent rest sid with
          | ok vs st' =>
            rw [hdr] at hd
            simpa [hsent, hdr, stOf] using hd
          | err e st' =>
            rw [hdr] at hd
            simpa [hsent, hdr, stOf] using hd
          | noFuel => simp [hsent, hdr, stOf, evolL_refl]
        · cases hx : lookupService st d with
          | none => simp [hsent, hx, stOf, evolL_refl]
          | some dsvc =>
            by_cases hill : parent.lifecycle = .singleton ∧ dsvc.lifecycle = .scoped
            · simp [hsent, hx, hill, stOf, evolL_refl]
            · have hr := ihR st (.byName d) sid
              cases hrr : resolve n st (.byName d) sid with
              | ok v st' =>
                rw [hrr] at hr
                simp only [stOf] at hr
                have hd := ihD st' parent rest sid
                cases hdr : resolveDepsList n st' parent rest sid with
                | ok vs st'' =>
                  rw [hdr] at hd
                  simp only [stOf] at hd
                  simpa [hsent, hx, hill, hrr, hdr, stOf] using evolL_trans hr hd
                | err e st'' =>
                  rw [hdr] at hd
                  simp only [stOf] at hd
                  simpa [hsent, hx, hill, hrr, hdr, stOf] using evolL_trans hr hd
                | noFuel => simp [hsent, hx, hill, hrr, hdr, stOf, evolL_refl]
              | err e st' =>
                rw [hrr] at hr
                simpa [hsent, hx, hill, hrr, stOf] using hr
              | noFuel => simp [hsent, hx, hill, hrr, stOf, evolL_refl]

/-- Dependency resolution never returns normally while some declared
dependency (other than the container sentinel) has no descriptor. -/
theorem resolveDepsList_no_ok_missing {d : String} (hd : d ≠ "ServiceContainer") :
    ∀ fuel st parent ds sid, d ∈ ds → lookupService st d = none →
      ∀ vs st', resolveDepsList fuel st parent ds sid ≠ .ok vs st' := by
  intro fuel
  induction fuel with
  | zero =>
    intro st parent ds sid hmem hnone vs st'
    cases ds <;> simp [resolveDepsList]
  | succ n ih =>
    intro st parent ds sid hmem hnone vs st'
    cases ds with
    | nil => simp at hmem
    | cons a rest =>
      rcases List.mem_cons.mp hmem with rfl | hmem'
      · simp [resolveDepsList, hd, hnone]
      · by_cases hsent : a = "ServiceContainer"
        · simp only [resolveDepsList, if_pos hsent]
          cases hdr : resolveDepsList n st parent rest sid with
          | ok vs2 st2 => exact absurd hdr (ih st parent rest sid hmem' hnone vs2 st2)
          | err e st2 => simp
          | noFuel => simp
        · simp only [resolveDepsList, if_neg hsent]
          cases hx : lookupService st a with
          | none => simp
          | some asvc =>
            by_cases hill : parent.lifecycle = .singleton ∧ asvc.lifecycle = .scoped
            · simp [hill]
            · simp only [if_neg hill]
              cases hrr : resolve n st (.byName a) sid with
              | ok v st1 =>
                have hev := (evol_master n).1 st (.byName a) sid
                rw [hrr] at hev
                simp only [stOf] at hev
                have hnone1 : lookupService st1 d = none := findSvc_none_evolL hev hnone
                cases hdr : resolveDepsList n st1 parent rest sid with
                | ok vs2 st2 => exact absurd hdr (ih st1 parent rest sid hmem' hnone1 vs2 st2)
                | err e st2 => simp [hdr]
                | noFuel => simp [hdr]
              | err e st1 => simp
              | noFuel => simp

/-- Dependency resolution of a singleton parent never returns normally
while some declared dependency is a registered scoped service. -/
theorem resolveDepsList_no_ok_scoped {d : String} (hd : d ≠ "ServiceContainer") :
    ∀ fuel st parent ds sid, parent.lifecycle = .singleton → d ∈ ds →
      (∃ dsvc, lookupService st d = some dsvc ∧ dsvc.lifecycle = .scoped) →
      ∀ vs st', resolveDepsList fuel st parent ds sid ≠ .ok vs st' := by
  intro fuel
  induction fuel with
  | zero =>
    intro st parent ds sid hpar hmem hsc vs st'
    cases ds <;> simp [resolveDepsList]
  | succ n ih =>
    intro st parent ds sid hpar hmem hsc vs st'
    obtain ⟨dsvc, hlk, hdsc⟩ := hsc
    cases ds with
    | nil => simp at hmem
    | cons a rest =>
      rcases List.mem_cons.mp hmem with rfl | hmem'
      · simp [resolveDepsList, hd, hlk, hpar, hdsc]
      · by_cases hsent : a = "ServiceContainer"
        · simp only [resolveDepsList, if_pos hsent]
          cases hdr : resolveDepsList n st parent rest sid with
          | ok vs2 st2 =>
            exact absurd hdr (ih st parent rest sid hpar hmem' ⟨dsvc, hlk, hdsc⟩ vs2 st2)
          | err e st2 => simp
          | noFuel => simp
        · simp only [resolveDepsList, if_neg hsent]
          cases hx : lookupService st a with
          | none => simp
          | some asvc =>
            by_cases hill : parent.lifecycle = .singleton ∧ asvc.lifecycle = .scoped
            · simp [hill]
            · simp only [if_neg hill]
              cases hrr : resolve n st (.byName a) sid with
              | ok v st1 =>
                have hev := (evol_master n).1 st (.byName a) sid
                rw [hrr] at hev
                simp only [stOf] at hev
                have hsc1 := findSvc_scoped_evolL hev hlk hdsc
                cases hdr : resolveDepsList n st1 parent rest sid with
                | ok vs2 st2 => exact absurd hdr (ih st1 parent rest sid hpar hmem' hsc1 vs2 st2)
                | err e st2 => simp [hdr]
                | noFuel => simp [hdr]
              | err e st1 => simp
              | noFuel => simp

/-- Lifting `resolveDepsList_no_ok_missing` to `_createInstance`. -/
theorem createInstance_no_ok_missing {d : String} (hd : d ≠ "ServiceContainer") (fuel : Nat)
    (st : St) (svc : ServiceModel) (sid : Option Nat) (hmem : d ∈ svc.classType.deps)
    (hnone : lookupService st d = none) :
    ∀ id st', createInstance fuel st svc sid ≠ .ok id st' := by
  intro id st'
  cases fuel with
  | zero => simp [createInstance]
  | succ n =>
    simp only [createInstance]
    cases hdr : resolveDepsList n st svc svc.classType.deps sid with
    | ok vs st2 =>
      exact absurd hdr (resolveDepsList_no_ok_missing hd n st svc _ sid hmem hnone vs st2)
    | err e st2 => simp [hdr]
    | noFuel => simp [hdr]

/-- Lifting `resolveDepsList_no_ok_scoped` to `_createInstance`. -/
theorem createInstance_no_ok_scoped {d : String} (hd : d ≠ "ServiceContainer") (fuel : Nat)
    (st : St) (svc : ServiceModel) (sid : Option Nat) (hpar : svc.lifecycle = .singleton)
    (hmem : d ∈ svc.classType.deps)
    (hsc : ∃ dsvc, lookupService st d = some dsvc ∧ dsvc.lifecycle = .scoped) :
    ∀ id st', createInstance fuel st svc sid ≠ .ok id st' := by
  intro id st'
  cases fuel with
  | zero => simp [createInstance]
  | succ n =>
    simp only [createInstance]
    cases hdr : resolveDepsList n st svc svc.classType.deps sid with
    | ok vs st2 =>
      exact absurd hdr (resolveDepsList_no_ok_scoped hd n st svc _ sid hpar hmem hsc vs st2)
    | err e st2 => simp [hdr]
    | noFuel => simp [hdr]

/-- `this.sessions.delete(sid)` makes the session unfindable. -/
theorem lookupSession_endSession (st : St) (sid : Nat) :
    lookupSession (endSession st sid) sid = none := by
  have h : (st.sessions.filter (fun p => p.1 ≠ sid)).find? (fun p => p.1 = sid) = none := by
    rw [List.find?_eq_none]
    intro p hp
    have := (List.mem_filter.mp hp).2
    simp_all
  simp [lookupSession, endSession, h]

/-- The transient cycle `A ↔ B` makes every involved call exhaust any
fuel: the resolver has no cycle guard and never returns. -/
theorem cyc_diverges : ∀ fuel : Nat,
    resolve fuel stCyc (.byName "A") none = .noFuel ∧
    resolve fuel stCyc (.byName "B") none = .noFuel ∧
    createInstance fuel stCyc svcCycA none = .noFuel ∧
    createInstance fuel stCyc svcCycB none = .noFuel ∧
    resolveDepsList fuel stCyc svcCycA ["B"] none = .noFuel ∧
    resolveDepsList fuel stCyc svcCycB ["A"] none = .noFuel := by
  intro fuel
  induction fuel with
  | zero => exact ⟨rfl, rfl, rfl, rfl, rfl, rfl⟩
  | succ n ih =>
    obtain ⟨h1, h2, h3, h4, h5, h6⟩ := ih
    refine ⟨?_, ?_, ?_, ?_, ?_, ?_⟩
    · rw [show resolve (n+1) stCyc (.byName "A") none =
          (match createInstance n stCyc svcCycA none with
           | .ok id st' => .ok (.vInst id) st'
           | .err e st' => .err e st'
           | .noFuel => .noFuel) from rfl, h3]
    · rw [show resolve (n+1) stCyc (.byName "B") none =
          (match createInstance n stCyc svcCycB none with
           | .ok id st' => .ok (.vInst id) st'
           | .err e st' => .err e st'
           | .noFuel => .noFuel) from rfl, h4]
    · rw [show createInstance (n+1) stCyc svcCycA none =
          (match resolveDepsList n stCyc svcCycA ["B"] none with
           | .ok _vals st' => .ok st'.nextId { st' with nextId := st'.nextId + 1 }
           | .err e st' => .err e st'
           | .noFuel => .noFuel) from rfl, h5]
    · rw [show createInstance (n+1) stCyc svcCycB none =
          (match resolveDepsList n stCyc svcCycB ["A"] none with
           | .ok _vals st' => .ok st'.nextId { st' with nextId := st'.nextId + 1 }
           | .err e st' => .err e st'
           | .noFuel => .noFuel) from rfl, h6]
    · rw [show resolveDepsList (n+1) stCyc svcCycA ["B"] none =
          (match resolve n stCyc (.byName "B") none with
           | .ok v st' =>
             (match resolveDepsList n st' svcCycA [] none with
              | .ok vs st'' => .ok (v :: vs) st''
              | .err e st'' => .err e st''
              | .noFuel => .noFuel)
           | .err e st' => .err e st'
           | .noFuel => .noFuel) from rfl, h2]
    · rw [show resolveDepsList (n+1) stCyc svcCycB ["A"] none =
          (match resolve n stCyc (.byName "A") none with
           | .ok v st' =>
             (match resolveDepsList n st' svcCycB [] none with
              | .ok vs st'' => .ok (v :: vs) st''
              | .err e st'' => .err e st''
              | .noFuel => .noFuel)
           | .err e st' => .err e st'
           | .noFuel => .noFuel) from rfl, h1]

/-!  Claim theorems.  -/

/-- Claim C1 (amended): the resolver has no cycle guard and no
circular-dependency error at all.  Resolving either member of the
registered transient cycle `A ↔ B` exhausts every recursion budget
without reporting any error, while the unrelated acyclic `D` still
resolves successfully from the same state (the attempt never mutates
the container). -/
theorem cyclic_resolve_never_reports_circular :
    (∀ fuel, resolve fuel stCyc (.byName "A") none = .noFuel) ∧
    (∀ fuel, resolve fuel stCyc (.byName "B") none = .noFuel) ∧
    resolve 3 stCyc (.byName "D") none = .ok (.vInst 0) { stCyc with nextId := 1 } :=
  ⟨fun fuel => (cyc_diverges fuel).1, fun fuel => (cyc_diverges fuel).2.1, by decide⟩

/-- Claim C1, counterexample: the cycle is reachable through three
successful registrations, and resolving `A` with a budget of 100 nested
calls is still recursing — it has not failed with any error, in
particular not with a circular-dependency one. -/
theorem cyclic_resolve_counterexample :
    register 2 ({} : St) "A" cCycA .transient = .ok () stCyc1 ∧
    register 2 stCyc1 "B" cCycB .transient = .ok () stCyc2 ∧
    register 2 stCyc2 "D" cCycD .transient = .ok () stCyc ∧
    resolve 100 stCyc (.byName "A") none = .noFuel := by decide

/-- Claim C2 (code bug): scoped `X`, two active sessions.  The first
resolution in session 0 yields instance 0; the interleaved first
resolution in session 1 yields instance 1; re-resolving in session 0
then returns instance 1 — session 0 serves the instance constructed for
session 1, because `_resolveFromSession` stores the global descriptor
object itself in the session map and overwrites its shared `instance`
field. -/
theorem scoped_instance_leaks_across_scopes :
    register 2 ({} : St) "X" cX .scoped = .ok () ⟨[svcX], [], 0, 0⟩ ∧
    beginSession ⟨[svcX], [], 0, 0⟩ = (0, ⟨[svcX], [(0, [])], 0, 1⟩) ∧
    beginSession ⟨[svcX], [(0, [])], 0, 1⟩ = (1, stX2) ∧
    resolve 5 stX2 (.byName "X") (some 0) = .ok (.vInst 0) stX2a ∧
    resolve 5 stX2a (.byName "X") (some 1) = .ok (.vInst 1) stX2b ∧
    resolve 5 stX2b (.byName "X") (some 0) = .ok (.vInst 1) stX2b ∧
    Value.vInst 1 ≠ Value.vInst 0 := by decide

/-- Claim C3 (amended): a singleton whose first declared dependency is a
registered scoped service fails registration with
`IllegalScopedInjection` and the store is unchanged; a singleton
declaring a registered scoped dependency anywhere in its list can never
register successfully; the async `registerAsync`, however, silently
substitutes `undefined` for a directly scoped dependency and registers
the singleton. -/
theorem singleton_scoped_dep_enforcement (fuel n : Nat) (st : St) (name d : String)
    (ct : ClassT) (rest : List String) (hdeps : ct.deps = d :: rest)
    (hsent : d ≠ "ServiceContainer") (dsvc : ServiceModel)
    (hlk : lookupService st d = some dsvc) (hsc : dsvc.lifecycle = .scoped)
    (hfresh : lookupService st name = none) :
    register (n+2) st name ct .singleton = .err (.illegalScopedInjection d) st ∧
    (∀ st', register fuel st name ct .singleton ≠ .ok () st') ∧
    (registerAsync 10 stCA "S" cSA .singleton = some stCA' ∧
      lookupServiceA stCA' "S" = some ⟨"S", .singleton, cSA, some 0⟩) := by
  refine ⟨?_, ?_, by decide⟩
  · have hdl : resolveDepsList (n+1) st ⟨name, .singleton, ct, none⟩ (d :: rest) none =
        .err (.illegalScopedInjection d) st := by
      simp [resolveDepsList, hsent, hlk, hsc]
    simp [register, hfresh, createInstance, hdeps, hdl]
  · intro st'
    simp only [register, hfresh, Option.isSome_none, Bool.false_eq_true, if_false, reduceIte]
    cases hc : createInstance fuel st ⟨name, .singleton, ct, none⟩ none with
    | ok id st2 =>
      refine absurd hc (createInstance_no_ok_scoped hsent fuel st _ none rfl ?_ ⟨dsvc, hlk, hsc⟩ id st2)
      show d ∈ ct.deps
      rw [hdeps]
      exact List.mem_cons_self d rest
    | err e st2 => simp [hc]
    | noFuel => simp [hc]

/-- Claim C3, counterexample: transient `T` depends on scoped `C`;
registering singleton `S` (whose dependency list is `[T]`) fails — but
with `ScopeRequired` for `C`, not with `IllegalScopedInjection` — and
`S` stays unregistered. -/
theorem transitive_scoped_dep_fails_differently :
    register 2 ({} : St) "T" cT .transient = .ok () ⟨[svcT], [], 0, 0⟩ ∧
    register 2 ⟨[svcT], [], 0, 0⟩ "C" cC .scoped = .ok () stTC ∧
    register 10 stTC "S" cS .singleton = .err (.scopeRequired "C") stTC ∧
    lookupService stTC "S" = none := by decide

/-- Claim C3, witness: instantiating the direct case at scoped `C` and
singleton `S`. -/
theorem singleton_scoped_dep_enforcement_witness :
    register 3 stCdirect "S" cSA .singleton =
      .err (.illegalScopedInjection "C") stCdirect :=
  (singleton_scoped_dep_enforcement 3 1 stCdirect "S" "C" cSA [] rfl (by decide) svcC
    (by decide) rfl (by decide)).1

/-- Claim C4 (confirmed): resolving a registered scoped service without
a session id throws `ScopeRequired` and leaves the container untouched —
no instance is constructed. -/
theorem resolve_scoped_without_scope_fails (n : Nat) (st : St) (key : NameOrType)
    (svc : ServiceModel) (h : lookupService st (keyName key) = some svc)
    (hs : svc.lifecycle = .scoped) :
    resolve (n+1) st key none = .err (.scopeRequired (keyName key)) st := by
  simp [resolve, h, hs]

/-- Claim C4, witness. -/
theorem resolve_scoped_without_scope_fails_witness :
    resolve 4 stCdirect (.byName "C") none = .err (.scopeRequired "C") stCdirect :=
  resolve_scoped_without_scope_fails 3 stCdirect (.byName "C") svcC (by decide) rfl

/-- Claim C5 (amended): the synchronous resolver aborts the whole chain
on a missing dependency with `UnresolvedDependency` naming both the
dependency and the dependent, and can never return normally while a
declared dependency is unregistered; the asynchronous
`_createInstanceAsync`, however, substitutes `undefined` for the missing
dependency and continues with the rest of the list. -/
theorem missing_dep_behavior (n : Nat) (st : St) (parent : ServiceModel) (d : String)
    (rest : List String) (sid : Option Nat) (hsent : d ≠ "ServiceContainer")
    (hnone : lookupService st d = none) :
    resolveDepsList (n+1) st parent (d :: rest) sid =
      .err (.unresolvedDependency d parent.name) st ∧
    (∀ fuel ds vs st', d ∈ ds → resolveDepsList fuel st parent ds sid ≠ .ok vs st') ∧
    (∀ (stA : StA) (parentA : ServiceModel) (restA : List String) (sidA : Option Nat),
        lookupServiceA stA d = none →
        resolveDepsAsync (n+1) stA parentA (d :: restA) sidA =
          (resolveDepsAsync n stA parentA restA sidA).map
            (fun p => (.vUndefined :: p.1, p.2))) := by
  refine ⟨?_, ?_, ?_⟩
  · simp [resolveDepsList, hsent, hnone]
  · intro fuel ds vs st' hmem
    exact resolveDepsList_no_ok_missing hsent fuel st parent ds sid hmem hnone vs st'
  · intro stA parentA restA sidA hA
    simp [resolveDepsAsync, hsent, hA]

/-- Claim C5, counterexample: `P` declares the unregistered `M`; the
async dependency loop substitutes `undefined` for it and
`resolveAsync(P)` still constructs and returns an instance — the chain
is not aborted and no error is reported. -/
theorem async_missing_dep_substitutes_undefined :
    registerAsync 2 ({} : StA) "P" cP .transient = some stP ∧
    resolveDepsAsync 5 stP svcP ["M"] none = some ([.vUndefined], stP) ∧
    resolveAsync 7 stP (.byName "P") none = some (.vInst 0, { stP with nextId := 1 }) := by
  decide

/-- Claim C5, witness: the synchronous abort at a concrete input. -/
theorem missing_dep_behavior_witness :
    resolveDepsList 3 stQ svcQ ["M"] none = .err (.unresolvedDependency "M" "Q") stQ :=
  (missing_dep_behavior 2 stQ svcQ "M" [] none (by decide) (by decide)).1

/-- Claim C6 (amended): registering an existing name throws
`DuplicateService` and leaves the store and the existing descriptor
unchanged (the async `registerAsync` instead ignores the duplicate
silently, also leaving the store unchanged); a fresh name is inserted,
except that registering a singleton whose eager construction throws
propagates that error and inserts nothing. -/
theorem register_duplicate_and_insert (fuel : Nat) (st : St) (stA : StA) (name : String)
    (ct : ClassT) (lc : Lifecycle) :
    (∀ d, lookupService st name = some d →
        register fuel st name ct lc = .err (.duplicateService name) st) ∧
    (∀ d, lookupServiceA stA name = some d → registerAsync fuel stA name ct lc = some stA) ∧
    (lookupService st name = none → lc ≠ .singleton →
        register fuel st name ct lc = .ok () (addServiceSt st ⟨name, lc, ct, none⟩) ∧
        lookupService (addServiceSt st ⟨name, lc, ct, none⟩) name =
          some ⟨name, lc, ct, none⟩) ∧
    (lookupService st name = none →
        ∀ e st', register fuel st name ct .singleton = .err e st' →
          lookupService st' name = none) := by
  refine ⟨?_, ?_, ?_, ?_⟩
  · intro d h
    simp [register, h]
  · intro d h
    simp [registerAsync, h]
  · intro hfresh hlc
    refine ⟨by simp [register, hfresh, hlc], ?_⟩
    exact findSvc_append_fresh ⟨name, lc, ct, none⟩ hfresh rfl
  · intro hfresh e st'
    simp only [register, hfresh, Option.isSome_none, Bool.false_eq_true, if_false, reduceIte]
    cases hc : createInstance fuel st ⟨name, .singleton, ct, none⟩ none with
    | ok id st2 => simp [hc]
    | err e2 st2 =>
      simp only [hc]
      intro hreg
      injection hreg with h1 h2
      subst h2
      have hev := (evol_master fuel).2.2.1 st ⟨name, .singleton, ct, none⟩ none
      rw [hc] at hev
      simp only [stOf] at hev
      exact findSvc_none_evolL hev hfresh
    | noFuel => simp [hc]

/-- Claim C6, counterexample: a fresh-name registration does not always
insert — registering singleton `A` (depending on the unregistered `B`)
on the empty container throws `UnresolvedDependency` and inserts
nothing. -/
theorem register_fresh_singleton_not_inserted :
    lookupService ({} : St) "A" = none ∧
    register 5 ({} : St) "A" cCycA .singleton =
      .err (.unresolvedDependency "B" "A") ({} : St) := by decide

/-- Claim C6, witness: the duplicate path at a concrete input. -/
theorem register_duplicate_and_insert_witness :
    register 3 stQ "Q" cQ .transient = .err (.duplicateService "Q") stQ :=
  (register_duplicate_and_insert 3 stQ ({} : StA) "Q" cQ .transient).1 svcQ (by decide)

/-- Claim C7 (confirmed): a registered singleton holding its cached
instance returns that same instance, with the container unchanged, on
every scope-less resolution; and no resolution call whatsoever — any
key, any session — can replace the singleton's descriptor or its cached
instance. -/
theorem singleton_cached_instance_stable (st : St) (name : String) (svc : ServiceModel)
    (i : Nat) (h : lookupService st name = some svc) (hlc : svc.lifecycle = .singleton)
    (hi : svc.instance? = some i) :
    (∀ n, resolve (n+1) st (.byName name) none = .ok (.vInst i) st) ∧
    (∀ fuel key sid, lookupService (stOf (resolve fuel st key sid) st) name = some svc) := by
  constructor
  · intro n
    simp [resolve, keyName, h, hlc, hi, instVal]
  · intro fuel key sid
    have hev := (evol_master fuel).1 st key sid
    exact findSvc_nonscoped_evolL hev h (by simp [hlc])

/-- Claim C7, witness. -/
theorem singleton_cached_instance_stable_witness :
    resolve 4 stW (.byName "W") none = .ok (.vInst 0) stW :=
  (singleton_cached_instance_stable stW "W" svcW 0 (by decide) rfl rfl).1 3

/-- Claim C8 (confirmed): `endSession` removes the session from the
active set, and resolving a registered scoped service against the ended
session throws `UnknownScope`. -/
theorem ended_scope_resolution_fails (n : Nat) (st : St) (sid : Nat) (name : String)
    (svc : ServiceModel) (h : lookupService st name = some svc)
    (hs : svc.lifecycle = .scoped) :
    lookupSession (endSession st sid) sid = none ∧
    resolve (n+1+1) (endSession st sid) (.byName name) (some sid) =
      .err (.unknownScope sid) (endSession st sid) := by
  refine ⟨lookupSession_endSession st sid, ?_⟩
  have h' : lookupService (endSession st sid) name = some svc := h
  simp [resolve, keyName, h', hs, resolveFromSession, lookupSession_endSession]

/-- Claim C8, witness. -/
theorem ended_scope_resolution_fails_witness :
    resolve 5 (endSession stX2 0) (.byName "X") (some 0) =
      .err (.unknownScope 0) (endSession stX2 0) :=
  (ended_scope_resolution_fails 3 stX2 0 "X" svcX (by decide) rfl).2

/-- Claim C9 (confirmed): `register` of a singleton constructs the
instance eagerly and inserts the descriptor already carrying it; on a
construction error nothing is inserted (registration is atomic); and a
singleton whose declared dependency is unregistered can never register
successfully. -/
theorem register_singleton_eager_atomic (fuel : Nat) (st : St) (name : String) (ct : ClassT)
    (hfresh : lookupService st name = none) :
    (∀ id st', createInstance fuel st ⟨name, .singleton, ct, none⟩ none = .ok id st' →
        register fuel st name ct .singleton =
          .ok () (addServiceSt st' ⟨name, .singleton, ct, some id⟩) ∧
        lookupService (addServiceSt st' ⟨name, .singleton, ct, some id⟩) name =
          some ⟨name, .singleton, ct, some id⟩) ∧
    (∀ e st', register fuel st name ct .singleton = .err e st' →
        lookupService st' name = none) ∧
    (∀ d, d ∈ ct.deps → d ≠ "ServiceContainer" → lookupService st d = none →
        ∀ st', register fuel st name ct .singleton ≠ .ok () st') := by
  refine ⟨?_, ?_, ?_⟩
  · intro id st' hc
    refine ⟨by simp [register, hfresh, hc], ?_⟩
    have hev := (evol_master fuel).2.2.1 st ⟨name, .singleton, ct, none⟩ none
    rw [hc] at hev
    simp only [stOf] at hev
    exact findSvc_append_fresh _ (findSvc_none_evolL hev hfresh) rfl
  · intro e st'
    simp only [register, hfresh, Option.isSome_none, Bool.false_eq_true, if_false, reduceIte]
    cases hc : createInstance fuel st ⟨name, .singleton, ct, none⟩ none with
    | ok id st2 => simp [hc]
    | err e2 st2 =>
      simp only [hc]
      intro hreg
      injection hreg with h1 h2
      subst h2
      have hev := (evol_master fuel).2.2.1 st ⟨name, .singleton, ct, none⟩ none
      rw [hc] at hev
      simp only [stOf] at hev
      exact findSvc_none_evolL hev hfresh
    | noFuel => simp [hc]
  · intro d hmem hsent hnone st'
    simp only [register, hfresh, Option.isSome_none, Bool.false_eq_true, if_false, reduceIte]
    cases hc : createInstance fuel st ⟨name, .singleton, ct, none⟩ none with
    | ok id st2 => exact absurd hc (createInstance_no_ok_missing hsent fuel st _ none hmem hnone id st2)
    | err e st2 => simp [hc]
    | noFuel => simp [hc]

/-- Claim C9, witness: eager success at a concrete input. -/
theorem register_singleton_eager_atomic_witness :
    register 3 ({} : St) "W" cW .singleton =
      .ok () (addServiceSt ⟨[], [], 1, 0⟩ ⟨"W", .singleton, cW, some 0⟩) :=
  ((register_singleton_eager_atomic 3 ({} : St) "W" cW (by decide)).1 0 ⟨[], [], 1, 0⟩
    (by decide)).1

/-- Claim C10 (confirmed): a non-string `resolve` argument is looked up
by its `.name` alone, so two distinct classes sharing a `.name` resolve
identically, and a service registered under a custom name cannot be
found by passing the class itself (while the custom name still
works). -/
theorem resolve_key_is_class_name :
    (∀ fuel (st : St) (sid : Option Nat) (c c' : ClassT), c.cname = c'.cname →
        resolve fuel st (.byType c) sid = resolve fuel st (.byType c') sid) ∧
    (register 2 ({} : St) "Custom" cXcls .transient = .ok () stCustom ∧
      resolve 5 stCustom (.byType cXcls) none = .err (.notFound "X") stCustom ∧
      resolve 5 stCustom (.byName "Custom") none =
        .ok (.vInst 0) { stCustom with nextId := 1 }) := by
  constructor
  · intro fuel st sid c c' hc
    cases fuel with
    | zero => rfl
    | succ n =>
      simp only [resolve, keyName]
      rw [hc]
  · decide

/-- Claim C10, witness: two distinct classes named `Y` resolve
identically. -/
theorem resolve_key_is_class_name_witness :
    resolve 4 stCustom (.byType cY1) none = resolve 4 stCustom (.byType cY2) none :=
  resolve_key_is_class_name.1 4 stCustom none cY1 cY2 rfl

end DI
